import Mathlib

/-!
Shallow embedding of VisionLint's `IntegrityLinter`
(`src/vision_lint/core/auditor.py`): the per-file integrity pipeline
`check_image_integrity` and the scanner `check`, together with proofs of
the pipeline's specified properties.

The external world (filesystem, PIL, OpenCV) is modelled by explicit
per-file oracles: a `FileModel` records what `os.path.getsize`,
`PIL.Image.open(...).verify()` and `cv2.imread` would do on the file, and
`Node` models a filesystem subtree for the recursive `os.walk` traversal.
Python exceptions are modelled with `Except String`: an exception that the
local handlers of the code do not catch surfaces as `.error` and is
handled at the outer boundary of `check_image_integrity`.
-/

namespace VisionLint

/-- Value-equal record produced for every reported issue
(`LintResult` in `base.py`: pydantic model, value equality). -/
structure LintResult where
  file_path : String
  linter_name : String
  issue_type : String
  severity : String
  message : String
deriving DecidableEq, Repr

/-- All findings of `IntegrityLinter` carry the same `linter_name`. -/
def mkResult (p issue sev msg : String) : LintResult :=
  { file_path := p, linter_name := "IntegrityLinter", issue_type := issue,
    severity := sev, message := msg }

/-- `self.supported_extensions = set hold .jpg .jpeg .png .bmp .tiff .webp`;
only membership is ever used, so a list is a faithful model of the set. -/
def supported_extensions : List String :=
  [".jpg", ".jpeg", ".png", ".bmp", ".tiff", ".webp"]

/-- Text naming the supported-extension set, as interpolated into messages by
the code. Python renders the set with quotes and unspecified element
order; we fix one canonical rendering, which no claim depends on. -/
def extSetRepr : String := "\x7b.jpg, .jpeg, .png, .bmp, .tiff, .webp\x7d"

/-- Python `str.lower()` over the characters of a string (the names in
play are ASCII, where `Char.toLower` agrees with Python). -/
def lowerChars (s : String) : List Char := s.data.map Char.toLower

/-- Python `name.lower().endswith(ext)`. -/
def lowerEndsWith (name ext : String) : Bool :=
  List.isSuffixOf ext.data (lowerChars name)

/-- `any(name.lower().endswith(ext) for ext in self.supported_extensions)`. -/
def hasSupportedExt (name : String) : Bool :=
  supported_extensions.any (fun ext => lowerEndsWith name ext)

/-- `file.startswith('.') or file == 'Thumbs.db'`: the skip rule applied to
each file name during the directory walk. -/
def isSkipped (file : String) : Bool :=
  List.isPrefixOf (".").data file.data || decide (file = ("Thumbs.db"))

/-- A decoded OpenCV buffer: its numpy `shape` and, when it is split with
`cv2.split`, its channel planes (each plane flattened to a list). -/
structure CvImage where
  shape : List Nat
  planes : List (List Nat)
deriving DecidableEq, Repr

/-- numpy `.size`: the product of the dimensions in `shape`. -/
def CvImage.numSize (i : CvImage) : Nat := i.shape.foldl (· * ·) 1

/-- Python `repr` of the shape tuple, as interpolated by the
`Zero Pixel Area` message (tuple parentheses; the one-element trailing
comma of Python tuples is not reproduced, no claim depends on it). -/
def shapeRepr (s : List Nat) : String :=
  "(" ++ String.intercalate (", ") (s.map toString) ++ ")"

/-- Outcome of `Image.open(file_path)` + `img.verify()` (PIL):
`ok`, an exception of the caught classes (IOError, SyntaxError,
UnidentifiedImageError), or any other exception (uncaught locally). -/
inductive PilOutcome where
  | ok
  | caughtErr (msg : String)
  | uncaughtErr (msg : String)
deriving DecidableEq, Repr

/-- Outcome of `cv2.imread(file_path)`: a `cv2.error` (caught locally),
`None`, a decoded buffer, or any other exception (uncaught locally). -/
inductive CvOutcome where
  | cvError (msg : String)
  | retNone
  | retImg (img : CvImage)
  | uncaughtErr (msg : String)
deriving DecidableEq, Repr

/-- Per-file oracle for the external calls made by `check_image_integrity`:
`getsize` is `os.path.getsize` (which may itself raise), then the PIL and
OpenCV outcomes. -/
structure FileModel where
  getsize : Except String Nat
  pil : PilOutcome
  cv : CvOutcome
deriving Repr

/-- The body of `check_image_integrity` inside its outer `try`:
stages 1 (size), 2 (PIL verify), 3 (OpenCV decode + dimension check) and
4 (degenerate-channel check). `.error e` models an exception escaping all
the local handlers, to be caught by the outer `except Exception`. -/
def check_image_integrity_body (file_path : String) (fm : FileModel) :
    Except String (List LintResult) :=
  match fm.getsize with
  | Except.error e => Except.error e
  | Except.ok size =>
  if size = 0 then
    Except.ok [mkResult file_path ("Empty File") ("Critical") ("File size is 0 bytes")]
  else
  match fm.pil with
  | PilOutcome.caughtErr e =>
      Except.ok [mkResult file_path ("Corrupted Image (PIL)") ("Critical")
        ("PIL cannot open/verify image: " ++ e)]
  | PilOutcome.uncaughtErr e => Except.error e
  | PilOutcome.ok =>
  match fm.cv with
  | CvOutcome.cvError e =>
      Except.ok [mkResult file_path ("Corrupted Image (OpenCV)") ("Critical")
        ("OpenCV cannot decode image: " ++ e)]
  | CvOutcome.uncaughtErr e => Except.error e
  | CvOutcome.retNone =>
      Except.ok [mkResult file_path ("Corrupted Image (OpenCV)") ("Critical")
        ("OpenCV cannot decode image (returned None)")]
  | CvOutcome.retImg img =>
  if img.numSize = 0 ∨ img.shape.getD 0 0 = 0 ∨ img.shape.getD 1 0 = 0 then
    Except.ok [mkResult file_path ("Zero Pixel Area") ("Critical")
      ("Image has invalid dimensions: " ++ shapeRepr img.shape)]
  else
    Except.ok
      (if img.shape.length = 3 ∧ img.shape.getD 2 0 = 3 then
        let b := img.planes.getD 0 []
        let g := img.planes.getD 1 []
        let r := img.planes.getD 2 []
        if b = g ∧ b = r then
          [mkResult file_path ("Grayscale as RGB") ("Warning")
            ("Image is encoded as RGB but all pixels are grayscale (R=G=B)")]
        else []
      else [])

/-- `check_image_integrity(file_path)`: the body guarded by the outer
`except Exception as e`, which converts any escaped exception into one
Critical `Unknown Error` finding. -/
def check_image_integrity (file_path : String) (fm : FileModel) :
    List LintResult :=
  match check_image_integrity_body file_path fm with
  | .ok rs => rs
  | .error e =>
      [mkResult file_path ("Unknown Error") ("Critical")
        ("An unexpected error occurred: " ++ e)]

/-- A filesystem subtree: a regular file (with its oracle) or a directory
with named entries, in directory-listing order. -/
inductive Node where
  | file (fm : FileModel)
  | dir (entries : List (String × Node))
deriving Repr

/-- `os.path.join(root, name)` on a POSIX path without trailing slash. -/
def pathJoin (root name : String) : String := root ++ "/" ++ name

/-- The regular files of one directory listing, paired with the walk root
(the `files` component of one `os.walk` triple). -/
def listFiles (root : String) : List (String × Node) → List (String × String × FileModel)
  | [] => []
  | (name, Node.file fm) :: rest => (root, name, fm) :: listFiles root rest
  | (_, Node.dir _) :: rest => listFiles root rest

mutual

/-- `os.walk(root)` flattened to (root, filename, oracle) triples, in walk
order: top-down, the current directory's files first, then each
subdirectory in listing order. `os.walk` descends into every
subdirectory, including hidden (dot-named) ones. -/
def walk (root : String) : Node → List (String × String × FileModel)
  | .file _ => []
  | .dir entries => listFiles root entries ++ walkSubdirs root entries

/-- Recursive descent of `walk` into the subdirectories of a listing. -/
def walkSubdirs (root : String) : List (String × Node) → List (String × String × FileModel)
  | [] => []
  | (name, Node.dir sub) :: rest =>
      walk (pathJoin root name) (Node.dir sub) ++ walkSubdirs root rest
  | (_, Node.file _) :: rest => walkSubdirs root rest

end

/-- The per-file loop of `check` on a directory: skip hidden/system names,
then for supported extensions set `images_found` and extend the results
with `check_image_integrity`. Returns (results, images_found). -/
def processFiles : List (String × String × FileModel) → List LintResult × Bool
  | [] => ([], false)
  | (root, file, fm) :: rest =>
      if isSkipped file then processFiles rest
      else if hasSupportedExt file then
        let pr := processFiles rest
        (check_image_integrity (pathJoin root file) fm ++ pr.1, true)
      else processFiles rest

/-- `IntegrityLinter.check(data_path)`. The `Option Node` argument is what
the filesystem holds at `data_path`: `none` when the path does not exist,
`some (Node.file fm)` when `os.path.isfile` is true, and
`some (Node.dir entries)` for a directory, which is walked recursively. -/
def check (data_path : String) : Option Node → List LintResult
  | none =>
      [mkResult data_path ("Path Error") ("Critical") ("Path does not exist")]
  | some (Node.file fm) =>
      if hasSupportedExt data_path then check_image_integrity data_path fm
      else
        [mkResult data_path ("No Images Found") ("Critical")
          ("File extension not supported. Supported: " ++ extSetRepr)]
  | some (Node.dir entries) =>
      let pr := processFiles (walk data_path (Node.dir entries))
      if pr.2 then pr.1
      else
        [mkResult data_path ("No Images Found") ("Critical")
          ("No image files found with extensions " ++ extSetRepr)]

/-! ## Concrete file oracles used by witnesses and counterexamples -/

/-- A zero-byte file (later stages arbitrary, they are never reached). -/
def fmEmpty : FileModel :=
  { getsize := Except.ok 0, pil := PilOutcome.ok, cv := CvOutcome.retNone }

/-- A file on which `os.path.getsize` itself raises. -/
def fmBoom : FileModel :=
  { getsize := Except.error ("boom"), pil := PilOutcome.ok,
    cv := CvOutcome.retNone }

/-- A healthy 1×1 3-channel image whose three planes are identical. -/
def imgGray : CvImage := { shape := [1, 1, 3], planes := [[7], [7], [7]] }

/-- A file decoding to `imgGray`, all stages before the channel check pass. -/
def fmGray : FileModel :=
  { getsize := Except.ok 42, pil := PilOutcome.ok,
    cv := CvOutcome.retImg imgGray }

/-- A healthy 2×2 two-dimensional (single-channel) buffer. -/
def imgMono : CvImage := { shape := [2, 2], planes := [[1, 2, 3, 4]] }

/-- A file decoding to `imgMono`: every stage passes, nothing degenerate. -/
def fmClean : FileModel :=
  { getsize := Except.ok 99, pil := PilOutcome.ok,
    cv := CvOutcome.retImg imgMono }

/-! ## Claims -/

/-- C1: a zero-byte file yields exactly one Critical `Empty File` finding,
whatever the later-stage oracles would do (no later stage runs); the model
is a pure function of the file state, so re-running on the unchanged file
returns the identical single finding. -/
theorem empty_file_single_finding (p : String) (fm : FileModel)
    (hs : fm.getsize = Except.ok 0) :
    check_image_integrity p fm =
      [mkResult p ("Empty File") ("Critical") ("File size is 0 bytes")] := by
  unfold check_image_integrity check_image_integrity_body
  rw [hs]
  rfl

/-- Witness for C1 at a concrete zero-byte file. -/
theorem empty_file_single_finding_witness :
    fmEmpty.getsize = Except.ok 0 ∧
      check_image_integrity ("data/a.jpg") fmEmpty =
        [mkResult ("data/a.jpg") ("Empty File") ("Critical")
          ("File size is 0 bytes")] :=
  ⟨rfl, empty_file_single_finding ("data/a.jpg") fmEmpty rfl⟩

/-- C3: `check_image_integrity` is total in the model; when the staged body
raises an exception that no inner handler catches (`.error e`), the outer
boundary converts it into exactly one Critical `Unknown Error` finding
carrying the exception text. -/
theorem unknown_error_boundary (p : String) (fm : FileModel) (e : String)
    (hb : check_image_integrity_body p fm = Except.error e) :
    check_image_integrity p fm =
      [mkResult p ("Unknown Error") ("Critical")
        ("An unexpected error occurred: " ++ e)] := by
  unfold check_image_integrity
  rw [hb]

/-- Witness for C3: a file whose size probe raises. -/
theorem unknown_error_boundary_witness :
    check_image_integrity_body ("data/b.jpg") fmBoom =
        Except.error ("boom") ∧
      check_image_integrity ("data/b.jpg") fmBoom =
        [mkResult ("data/b.jpg") ("Unknown Error") ("Critical")
          ("An unexpected error occurred: " ++ "boom")] :=
  ⟨rfl, unknown_error_boundary ("data/b.jpg") fmBoom ("boom") rfl⟩

/-- C6: a missing path yields exactly one Critical `Path Error` finding
with the input path and the fixed message; no per-file check is consulted
(the result does not depend on any file oracle). -/
theorem path_error_single_finding (p : String) :
    check p none =
      [mkResult p ("Path Error") ("Critical") ("Path does not exist")] := rfl

/-- C7: a single-file scan delegates to `check_image_integrity` exactly
when the path case-insensitively ends in a supported extension, and
otherwise yields exactly one Critical `No Images Found` finding naming
the supported-extension set. -/
theorem single_file_dispatch (p : String) (fm : FileModel) :
    (hasSupportedExt p = true →
      check p (some (Node.file fm)) = check_image_integrity p fm) ∧
    (hasSupportedExt p = false →
      check p (some (Node.file fm)) =
        [mkResult p ("No Images Found") ("Critical")
          ("File extension not supported. Supported: " ++ extSetRepr)]) := by
  constructor
  · intro h
    unfold check
    rw [h]
    rfl
  · intro h
    unfold check
    rw [h]
    rfl

/-- Witness for C7: one supported (`.JPG`, case-insensitive) and one
unsupported (`.txt`) single-file scan. -/
theorem single_file_dispatch_witness :
    check ("v.JPG") (some (Node.file fmEmpty)) =
        check_image_integrity ("v.JPG") fmEmpty ∧
      check ("text.txt") (some (Node.file fmEmpty)) =
        [mkResult ("text.txt") ("No Images Found") ("Critical")
          ("File extension not supported. Supported: " ++ extSetRepr)] :=
  ⟨(single_file_dispatch ("v.JPG") fmEmpty).1 (by decide),
   (single_file_dispatch ("text.txt") fmEmpty).2 (by decide)⟩

/-- C9: no single file ever yields two or more findings: every
short-circuit stage returns a singleton and the additive channel stage
appends to a list that is empty when it runs, so the result always has
length at most one. -/
theorem at_most_one_finding (p : String) (fm : FileModel) :
    (check_image_integrity p fm).length ≤ 1 := by
  rcases fm with ⟨gs, pil, cv⟩
  unfold check_image_integrity check_image_integrity_body
  rcases gs with e | size
  · simp
  · dsimp only
    by_cases hsz : size = 0
    · rw [if_pos hsz]
      simp
    · rw [if_neg hsz]
      rcases pil with _ | e1 | e1
      · rcases cv with e2 | _ | img | e2
        · simp
        · simp
        · dsimp only
          by_cases hdim : img.numSize = 0 ∨ img.shape.getD 0 0 = 0 ∨
              img.shape.getD 1 0 = 0
          · rw [if_pos hdim]
            simp
          · rw [if_neg hdim]
            dsimp only
            split
            · split <;> simp
            · simp
        · simp
      · simp
      · simp

/-- C4: when stages 1–3 all pass and the decoded buffer has exactly three
channels whose planes are element-wise identical, the additive final
stage yields exactly one Warning `Grayscale as RGB` finding (the list it
appends to is empty because every earlier stage passed). -/
theorem grayscale_single_warning (p : String) (fm : FileModel)
    (n hgt wid : Nat) (img : CvImage) (pl : List Nat)
    (hs : fm.getsize = Except.ok n) (hn : ¬ n = 0)
    (hp : fm.pil = PilOutcome.ok) (hc : fm.cv = CvOutcome.retImg img)
    (hshape : img.shape = [hgt, wid, 3]) (hh : hgt ≠ 0) (hw : wid ≠ 0)
    (hpl : img.planes = [pl, pl, pl]) :
    check_image_integrity p fm =
      [mkResult p ("Grayscale as RGB") ("Warning")
        ("Image is encoded as RGB but all pixels are grayscale (R=G=B)")] := by
  unfold check_image_integrity check_image_integrity_body
  rw [hs, hp, hc]
  dsimp only
  rw [if_neg hn]
  have hdim : ¬(img.numSize = 0 ∨ img.shape.getD 0 0 = 0 ∨
      img.shape.getD 1 0 = 0) := by
    simp [CvImage.numSize, hshape, hh, hw, Nat.mul_eq_zero]
  rw [if_neg hdim]
  have hch : img.shape.length = 3 ∧ img.shape.getD 2 0 = 3 := by
    simp [hshape]
  rw [if_pos hch]
  simp [hpl]

/-- Witness for C4: a 1×1 three-channel image with identical planes. -/
theorem grayscale_single_warning_witness :
    check_image_integrity ("g.png") fmGray =
      [mkResult ("g.png") ("Grayscale as RGB") ("Warning")
        ("Image is encoded as RGB but all pixels are grayscale (R=G=B)")] :=
  grayscale_single_warning ("g.png") fmGray 42 1 1 imgGray [7] rfl
    (by decide) rfl rfl rfl (by decide) (by decide) rfl

/-- C8: a file on which all four stages pass returns the explicit empty
list (of type `List LintResult`, never an absent value), distinguishing
success from "not checked". -/
theorem clean_image_empty_result (p : String) (fm : FileModel) (n : Nat)
    (img : CvImage)
    (hs : fm.getsize = Except.ok n) (hn : ¬ n = 0)
    (hp : fm.pil = PilOutcome.ok) (hc : fm.cv = CvOutcome.retImg img)
    (hdim : ¬(img.numSize = 0 ∨ img.shape.getD 0 0 = 0 ∨
      img.shape.getD 1 0 = 0))
    (hgray : ¬(img.shape.length = 3 ∧ img.shape.getD 2 0 = 3 ∧
      img.planes.getD 0 [] = img.planes.getD 1 [] ∧
      img.planes.getD 0 [] = img.planes.getD 2 [])) :
    check_image_integrity p fm = [] := by
  unfold check_image_integrity check_image_integrity_body
  rw [hs, hp, hc]
  dsimp only
  rw [if_neg hn, if_neg hdim]
  by_cases hch : img.shape.length = 3 ∧ img.shape.getD 2 0 = 3
  · rw [if_pos hch]
    have hbgr : ¬(img.planes.getD 0 [] = img.planes.getD 1 [] ∧
        img.planes.getD 0 [] = img.planes.getD 2 []) :=
      fun hb => hgray ⟨hch.1, hch.2, hb.1, hb.2⟩
    dsimp only
    rw [if_neg hbgr]
  · rw [if_neg hch]

/-- Witness for C8: a healthy two-dimensional (single-channel) buffer. -/
theorem clean_image_empty_result_witness :
    check_image_integrity ("ok.bmp") fmClean = [] :=
  clean_image_empty_result ("ok.bmp") fmClean 99 imgMono rfl (by decide)
    rfl rfl (by decide) (by decide)

/-- Helper: the per-file loop of the directory scan gives the same
results and the same `images_found` flag when the skipped (hidden or
`Thumbs.db`) entries are removed up front. -/
theorem processFiles_filter_skipped (l : List (String × String × FileModel)) :
    processFiles l = processFiles (l.filter (fun e => !(isSkipped e.2.1))) := by
  induction l with
  | nil => rfl
  | cons a rest ih =>
    rcases a with ⟨root, file, fm⟩
    by_cases hsk : isSkipped file = true
    · simp [processFiles, List.filter_cons, hsk, ih]
    · simp only [Bool.not_eq_true] at hsk
      simp [processFiles, List.filter_cons, hsk, ih]

/-- C2 (amended, directory scans): the result of scanning a directory is
fully determined by the walked files that are not hidden and not named
`Thumbs.db` — skipped files contribute no finding and do not count toward
the `images_found` determination. -/
theorem hidden_and_system_files_ignored (p : String)
    (entries : List (String × Node)) :
    check p (some (Node.dir entries)) =
      (let pr := processFiles
        ((walk p (Node.dir entries)).filter (fun e => !(isSkipped e.2.1)))
       if pr.2 then pr.1
       else
         [mkResult p ("No Images Found") ("Critical")
           ("No image files found with extensions " ++ extSetRepr)]) := by
  unfold check
  rw [← processFiles_filter_skipped]

/-- C2 fails as stated for single-file scans: the skip rule is applied
only inside the directory walk, so scanning a hidden file directly runs
the integrity check and the hidden file does contribute a finding. -/
theorem hidden_single_file_counterexample :
    isSkipped (".hidden.jpg") = true ∧
      check (".hidden.jpg") (some (Node.file fmEmpty)) =
        [mkResult (".hidden.jpg") ("Empty File") ("Critical")
          ("File size is 0 bytes")] ∧
      check (".hidden.jpg") (some (Node.file fmEmpty)) ≠ [] := by
  refine ⟨by decide, by decide, by decide⟩

/-- Helper: when every walked file is either skipped or of an unsupported
extension, the per-file loop accumulates nothing and never sets
`images_found`. -/
theorem processFiles_none_eligible (l : List (String × String × FileModel))
    (h : ∀ e ∈ l, isSkipped e.2.1 = true ∨ hasSupportedExt e.2.1 = false) :
    processFiles l = ([], false) := by
  induction l with
  | nil => rfl
  | cons a rest ih =>
    rcases a with ⟨root, file, fm⟩
    have ha := h _ (List.mem_cons_self _ _)
    have hrest := fun e he => h e (List.mem_cons_of_mem _ he)
    rcases ha with hsk | hext
    · simp only at hsk
      simp [processFiles, hsk, ih hrest]
    · simp only at hext
      by_cases hsk : isSkipped file = true
      · simp [processFiles, hsk, ih hrest]
      · simp only [Bool.not_eq_true] at hsk
        simp [processFiles, hsk, hext, ih hrest]

/-- C5: a directory whose walk encounters no eligible file (every file
hidden, `Thumbs.db`, or of unsupported extension) yields exactly one
Critical `No Images Found` finding, overriding the empty accumulated
result, however many ineligible files exist. -/
theorem no_images_found_dir (p : String) (entries : List (String × Node))
    (h : ∀ e ∈ walk p (Node.dir entries),
      isSkipped e.2.1 = true ∨ hasSupportedExt e.2.1 = false) :
    check p (some (Node.dir entries)) =
      [mkResult p ("No Images Found") ("Critical")
        ("No image files found with extensions " ++ extSetRepr)] := by
  unfold check
  dsimp only
  rw [processFiles_none_eligible _ h]
  rfl

/-- Witness for C5: a directory holding only a text file and a hidden
file. -/
theorem no_images_found_dir_witness :
    (∀ e ∈ walk ("data") (Node.dir [(("notes.txt"), Node.file fmEmpty),
        ((".DS_Store"), Node.file fmEmpty)]),
      isSkipped e.2.1 = true ∨ hasSupportedExt e.2.1 = false) ∧
    check ("data") (some (Node.dir [(("notes.txt"), Node.file fmEmpty),
        ((".DS_Store"), Node.file fmEmpty)])) =
      [mkResult ("data") ("No Images Found") ("Critical")
        ("No image files found with extensions " ++ extSetRepr)] :=
  ⟨by decide,
   no_images_found_dir ("data") ([(("notes.txt"), Node.file fmEmpty),
     ((".DS_Store"), Node.file fmEmpty)]) (by decide)⟩

/-- C10: the skip rule tests only the file's own name; `os.walk` descends
into every subdirectory, so an eligible file inside a hidden (dot-named)
directory is checked and counts toward `images_found` (the hypothesis on
the directory name is unused by the proof: descent does not inspect it). -/
theorem dot_directory_descended (p d name : String) (fm : FileModel)
    (_hd : List.isPrefixOf (".").data d.data = true)
    (hsk : isSkipped name = false) (he : hasSupportedExt name = true) :
    check p (some (Node.dir [(d, Node.dir [(name, Node.file fm)])])) =
      check_image_integrity (pathJoin (pathJoin p d) name) fm := by
  unfold check walk walkSubdirs
  simp [listFiles, walk, walkSubdirs, processFiles, hsk, he]

/-- Witness for C10: `root/.cache/img.jpg` is checked despite the hidden
parent directory. -/
theorem dot_directory_descended_witness :
    check ("root") (some (Node.dir [((".cache"),
        Node.dir [(("img.jpg"), Node.file fmEmpty)])])) =
      check_image_integrity (pathJoin (pathJoin ("root") (".cache"))
        ("img.jpg")) fmEmpty :=
  dot_directory_descended ("root") (".cache") ("img.jpg") fmEmpty
    (by decide) (by decide) (by decide)

end VisionLint
